import Mathlib

set_option autoImplicit false

/-!
Verification of the call-signaling and session-lifecycle engine of the incotest chat
application.  The repository carries several implementations of the engine:
src/components/CallManager.tsx contains three variants in document order (called v1, v2
and v3 below), and src/unnamed/part_002, part_003, part_004 and part_007 contain four
further ones (part_002 and part_003 share their media-acquisition and signaling
structure).  Each definition below is a shallow embedding of one concrete function of
those variants, with the source lines named in its doc comment.  Session descriptions
and ICE candidates are abstracted to numeric tokens; timestamps are epoch milliseconds
as integers.
-/

/-- Session description payload (SDP), abstracted to a numeric token. -/
abbrev SDP := Nat

/-- Serialized ICE candidate, abstracted to a numeric token. -/
abbrev Cand := Nat

/-- The status field of a shared call record.  Writes observed in the source are
offering (record creation), answered (answerCall), ended (hangupCall) and declined
(rejectCall). -/
inductive CallStatus where
  | offering
  | answered
  | ended
  | declined
deriving DecidableEq, Repr

/-- The shared call record, restricted to the fields the claims are about.  createdAt
is the creation timestamp in epoch milliseconds (none when the serverTimestamp has not
materialised yet). -/
structure CallDoc where
  status : CallStatus
  offer : Option SDP
  answer : Option SDP
  createdAt : Option Int
deriving DecidableEq, Repr

/-! ### v1 CallManager (first variant in CallManager.tsx, lines 1-538) -/

/-- The callStatus state of v1 (and of part_004): idle, calling, connected. -/
inductive Cm1Phase where
  | idle
  | calling
  | connected
deriving DecidableEq, Repr

/-- The in-process client state of the v1 CallManager: React state plus the refs that
hold the peer connection, media stream, subscriptions and ringtone.  appliedCandidates
is the log of addIceCandidate invocations performed on the current peer connection, in
order; it is an observation history, so teardown does not erase it. -/
structure Cm1St where
  callStatus : Cm1Phase
  activeCall : Bool
  incomingCall : Option Nat
  localStream : Bool
  pcOpen : Bool
  remoteDesc : Option SDP
  subs : Nat
  ringtone : Bool
  isMuted : Bool
  isVideoOff : Bool
  appliedCandidates : List Cand
deriving DecidableEq, Repr

/-- cleanup (v1, lines 47-76): stop local tracks, close and null the peer connection,
run and clear every stored unsubscribe function, null the stream refs, reset all React
state to idle and pause the ringtone. -/
def cm1Cleanup (s : Cm1St) : Cm1St :=
  { callStatus := .idle, activeCall := false, incomingCall := none,
    localStream := false, pcOpen := false, remoteDesc := none,
    subs := 0, ringtone := false, isMuted := false, isVideoOff := false,
    appliedCandidates := s.appliedCandidates }

/-- The externally observable actions of one cleanup invocation. -/
inductive CleanupEffect where
  | stopLocalTracks
  | closePeerConnection
  | unsubscribeListener
  | pauseRingtone
deriving DecidableEq, Repr

/-- The observable actions one invocation of cleanup (v1, lines 47-76) performs when
run in state s: tracks are stopped only when a local stream exists, the peer connection
is closed only when one is open, each stored unsubscribe function is invoked once, and
the ringtone is paused only when one is playing. -/
def cm1CleanupEffects (s : Cm1St) : List CleanupEffect :=
  (if s.localStream then [CleanupEffect.stopLocalTracks] else []) ++
  (if s.pcOpen then [CleanupEffect.closePeerConnection] else []) ++
  List.replicate s.subs CleanupEffect.unsubscribeListener ++
  (if s.ringtone then [CleanupEffect.pauseRingtone] else [])

/-- initiateCall's answerCandidates listener (v1, lines 222-231; the same shape appears
in part_004 lines 276-286 and in v2 lines 746-759): every added candidate is passed to
pc.addIceCandidate immediately, whatever the peer connection's state; there is no
queue, and a rejection is only logged by the catch. -/
def cm1OnAnswerCandidateAdded (c : Cand) (s : Cm1St) : Cm1St :=
  { s with appliedCandidates := s.appliedCandidates ++ [c] }

/-- initiateCall's call-doc listener (v1, lines 203-217): a missing snapshot returns at
once; otherwise, when no remote description is installed and the record carries an
answer, the answer is applied and callStatus is set to connected; finally a status of
ended or declined triggers cleanup. -/
def cm1OnCallDocSnapshot (snap : Option CallDoc) (s : Cm1St) : Cm1St :=
  match snap with
  | none => s
  | some d =>
    let s1 := if s.remoteDesc = none ∧ d.answer.isSome
      then { s with remoteDesc := d.answer, callStatus := .connected }
      else s
    if d.status = .ended ∨ d.status = .declined then cm1Cleanup s1 else s1

/-- The remote-description application performed by one firing of the caller's answer
listener, together with the number of setRemoteDescription calls it makes (v1 lines
203-211; the identical guard appears in v2 lines 728-736, v3 lines 1363-1375, part_004
lines 257-265 and part_007 lines 1199-1218): apply the record's answer only when no
remote description is installed yet. -/
def cm1AnswerApplyStep (snap : Option CallDoc) (p : Option SDP) : Option SDP × Nat :=
  match snap with
  | none => (p, 0)
  | some d => if p = none ∧ d.answer.isSome then (d.answer, 1) else (p, 0)

/-- A sequence of snapshot deliveries to the caller's answer listener, threading the
peer connection's remote description and summing the setRemoteDescription calls. -/
def cm1AnswerApplyRun (snaps : List (Option CallDoc)) (p : Option SDP) : Option SDP × Nat :=
  match snaps with
  | [] => (p, 0)
  | s :: rest =>
    let q := cm1AnswerApplyStep s p
    let r := cm1AnswerApplyRun rest q.1
    (r.1, q.2 + r.2)

/-- The incoming-call listener body for an added offering record (v1, lines 122-137;
part_004 lines 165-180 is identical): ring and store the incoming call only when
callStatus is idle and there is no active call.  The record's fields, in particular
createdAt, are never consulted. -/
def cm1OnIncomingAdded (docId : Nat) (_d : CallDoc) (s : Cm1St) : Cm1St :=
  if s.callStatus = .idle ∧ s.activeCall = false
  then { s with incomingCall := some docId, ringtone := true }
  else s

/-! ### Store-level record operations (part_004 lines 348-396; same writes in v1) -/

/-- The record created by initiateCall (part_004 lines 223-231 / v1 lines 176-184):
status offering, no offer or answer yet. -/
def p4InitialDoc : CallDoc :=
  { status := .offering, offer := none, answer := none, createdAt := some 0 }

/-- hangupCall (part_004 lines 379-385 / v1 lines 305-312): an unconditional merge of
status ended into the record, whatever its current status. -/
def p4HangupWrite (d : CallDoc) : CallDoc := { d with status := .ended }

/-- rejectCall (part_004 lines 387-396 / v1 lines 314-323): an unconditional merge of
status declined into the record, whatever its current status. -/
def p4RejectWrite (d : CallDoc) : CallDoc := { d with status := .declined }

/-- answerCall step 4 (part_004 lines 348-355 / v1 line 281): one merge writing the
answer and status answered together, unconditionally. -/
def p4AnswerWrite (sdp : SDP) (d : CallDoc) : CallDoc :=
  { d with answer := some sdp, status := .answered }

/-- The record-mutating operations the two clients can issue against one call record
after its creation.  Each is enabled by a purely local guard on its own client
(activeCall for hangup, incomingCall for reject and answer), so a caller's hangup and
a callee's reject or answer can both reach the store. -/
inductive CallOp where
  | answerOp (sdp : SDP)
  | hangupOp
  | rejectOp
deriving DecidableEq, Repr

/-- The store applies each arriving write as an unconditional merge. -/
def p4ApplyOp (d : CallDoc) : CallOp → CallDoc
  | .answerOp sdp => p4AnswerWrite sdp d
  | .hangupOp => p4HangupWrite d
  | .rejectOp => p4RejectWrite d

/-- The successive record statuses visible in the store when the given operations
arrive in order after creation. -/
def p4StatusTrace (ops : List CallOp) : List CallStatus :=
  (List.scanl p4ApplyOp p4InitialDoc ops).map CallDoc.status

/-- The transitions the status invariant allows: the edges of the two paths
offering-answered-ended and offering-declined, plus re-observing the same value. -/
def claimEdge : CallStatus → CallStatus → Bool
  | .offering, .offering => true
  | .offering, .answered => true
  | .offering, .declined => true
  | .answered, .answered => true
  | .answered, .ended => true
  | .ended, .ended => true
  | .declined, .declined => true
  | _, _ => false

/-- Whether a status trace moves only along the allowed edges. -/
def onClaimPath : List CallStatus → Bool
  | [] => true
  | [_] => true
  | a :: b :: rest => claimEdge a b && onClaimPath (b :: rest)

/-- One merge-update against the call record, carrying the fields it sets. -/
structure MergeWrite where
  answer : Option SDP
  status : Option CallStatus
deriving DecidableEq, Repr

/-- updateDoc merge semantics on the modeled fields: a field named in the write
replaces the stored one, an absent field is kept. -/
def applyMerge (d : CallDoc) (m : MergeWrite) : CallDoc :=
  { d with
    answer := match m.answer with | some a => some a | none => d.answer,
    status := m.status.getD d.status }

/-- The store writes performed by the callee's answer flow (v1 line 281, v2 lines
800-803, v3 lines 1433-1436, part_004 lines 348-355): exactly one updateDoc, carrying
the answer and status answered together. -/
def answerFlowWrites (sdp : SDP) : List MergeWrite :=
  [{ answer := some sdp, status := some .answered }]

/-- Every record state a concurrent reader can observe around the answer flow: the
state before it and the state after each of its writes. -/
def answerFlowStates (d0 : CallDoc) (sdp : SDP) : List CallDoc :=
  List.scanl applyMerge d0 (answerFlowWrites sdp)

/-- A record is consistent for readers when a status of answered comes with an answer
body. -/
def answeredHasBody (d : CallDoc) : Bool :=
  if d.status = .answered then d.answer.isSome else true

/-! ### v3 CallManager (third variant in CallManager.tsx, lines 1154-1782) -/

/-- The viewState.status values of v3. -/
inductive Cm3Phase where
  | idle
  | calling
  | ringing
  | connected
deriving DecidableEq, Repr

/-- The in-process client state of the v3 CallManager. -/
structure Cm3St where
  viewStatus : Cm3Phase
  incomingCall : Option Nat
  activeCall : Bool
  localStream : Bool
  pcOpen : Bool
  remoteDesc : Option SDP
  ringing : Bool
  docListenerActive : Bool
deriving DecidableEq, Repr

/-- cleanupCall (v3, lines 1205-1227): stop the ringtone and local tracks, close and
null the peer connection, reset every piece of call state to idle, unsubscribe the
call-doc listener. -/
def cm3CleanupCall (_s : Cm3St) : Cm3St :=
  { viewStatus := .idle, incomingCall := none, activeCall := false,
    localStream := false, pcOpen := false, remoteDesc := none,
    ringing := false, docListenerActive := false }

/-- handleHangup (v3, lines 1469-1481): local cleanup first, then a best-effort remote
delete of the call record (a store effect, not local state). -/
def cm3HandleHangup (s : Cm3St) : Cm3St := cm3CleanupCall s

/-- makeCall's call-doc listener (v3, lines 1363-1375): a deleted record triggers
handleHangup; otherwise an answer is applied under the no-remote-description guard. -/
def cm3OnCallDocSnapshot (snap : Option CallDoc) (s : Cm3St) : Cm3St :=
  match snap with
  | none => cm3HandleHangup s
  | some d =>
    if d.answer.isSome ∧ s.remoteDesc = none
    then { s with remoteDesc := d.answer }
    else s

/-- handleAnswerCall's call-end listener (v3, lines 1450-1454): when the snapshot no
longer exists, the callee runs handleHangup. -/
def cm3OnCallEndSnapshot (docExists : Bool) (s : Cm3St) : Cm3St :=
  if docExists then s else cm3HandleHangup s

/-- v3's incoming-call listener body for an added record (lines 1240-1256): ring only
when the record is younger than 60000 ms at watch time.  There is no idle guard.  The
JS age source reads createdAt via toMillis with a falsy-or fallback, so a missing or
zero timestamp is replaced by the current time and therefore rings. -/
def cm3OnIncomingAdded (docId : Nat) (d : CallDoc) (now : Int) (s : Cm3St) : Cm3St :=
  let createdAt : Int :=
    match d.createdAt with
    | some t => if t = 0 then now else t
    | none => now
  if now - createdAt < 60000
  then { s with incomingCall := some docId, ringing := true }
  else s

/-! ### part_007: candidate buffer, connection state and media fallback -/

/-- The status values of the part_007 call component. -/
inductive P7Status where
  | initializing
  | waiting
  | connected
  | failed
deriving DecidableEq, Repr

/-- RTCPeerConnection connectionState values. -/
inductive ConnState where
  | new
  | connecting
  | connected
  | disconnected
  | failed
  | closed
deriving DecidableEq, Repr

/-- The host-side state of part_007's startCall: the UI status, the peer connection's
remote description, the local candidateQueue, and the log of candidates handed to
addIceCandidate in order. -/
structure P7St where
  status : P7Status
  remoteDesc : Option SDP
  queue : List Cand
  applied : List Cand
  closedUI : Bool
deriving DecidableEq, Repr

/-- processCandidate (part_007, lines 1133-1146): apply the candidate at once when a
remote description exists, otherwise push it onto the queue.  (The re-queue on an
addIceCandidate rejection is unreachable here since an add with a remote description
present succeeds in the model.) -/
def p7ProcessCandidate (s : P7St) (c : Cand) : P7St :=
  if s.remoteDesc.isSome
  then { s with applied := s.applied ++ [c] }
  else { s with queue := s.queue ++ [c] }

/-- flushCandidateQueue (part_007, lines 1148-1159): shift every queued candidate, in
queue order, into addIceCandidate, leaving the queue empty. -/
def p7FlushQueue (s : P7St) : P7St :=
  { s with applied := s.applied ++ s.queue, queue := [] }

/-- One asynchronous callback firing on the host side of part_007's startCall: a
remote candidate added to answerCandidates, a snapshot of the call doc (none when the
doc was deleted, otherwise the doc's answer field), or a connection-state change. -/
inductive P7Event where
  | candidateAdded (c : Cand)
  | answerSnap (fields : Option (Option SDP))
  | connChange (cs : ConnState)
deriving DecidableEq, Repr

/-- Dispatch of one callback, as wired in part_007 lines 1122-1232: candidates go
through processCandidate; a deleted doc closes the UI; an answer is applied under the
no-remote-description guard and flushCandidateQueue runs immediately after the
successful setRemoteDescription; onconnectionstatechange maps connected to status
connected and disconnected or failed to status failed. -/
def p7Step (s : P7St) : P7Event → P7St
  | .candidateAdded c => p7ProcessCandidate s c
  | .answerSnap none => { s with closedUI := true }
  | .answerSnap (some ans) =>
    if s.remoteDesc = none ∧ ans.isSome
    then p7FlushQueue { s with remoteDesc := ans }
    else s
  | .connChange cs =>
    if cs = .connected then { s with status := .connected }
    else if cs = .disconnected ∨ cs = .failed then { s with status := .failed }
    else s

/-- A serialized run of callbacks, per the single-threaded event model. -/
def p7Run (s : P7St) : List P7Event → P7St
  | [] => s
  | e :: es => p7Run (p7Step s e) es

/-- The host's start state: status waiting, fresh peer connection, empty queue. -/
def p7Start : P7St :=
  { status := .waiting, remoteDesc := none, queue := [], applied := [], closedUI := false }

/-- The candidates one event delivers. -/
def p7DeliveredOne : P7Event → List Cand
  | .candidateAdded c => [c]
  | _ => []

/-- All candidates a run of events delivers, in arrival order. -/
def p7Delivered : List P7Event → List Cand
  | [] => []
  | e :: es => p7DeliveredOne e ++ p7Delivered es

/-! ### Media acquisition -/

/-- A getUserMedia constraint set, restricted to the features the claims speak about:
whether video is requested, whether a facingMode hint or an ideal-resolution hint is
attached to it, whether audio is requested, and whether the audio carries the ideal
constraints (echoCancellation and noiseSuppression, plus autoGainControl where the
variant requests it). -/
structure GUMRequest where
  video : Bool
  videoFacing : Bool
  videoResolution : Bool
  audio : Bool
  audioIdeal : Bool
deriving DecidableEq, Repr

/-- A device: for each constraint set, either a stream or a rejection. -/
abbrev MediaDevice := GUMRequest → Option Nat

/-- The one constraint set v1's initiateCall passes to getUserMedia (lines 163-166):
plain audio true, video with a facingMode hint when the call is video.  No echo
cancellation or noise suppression is requested. -/
def cm1MediaRequest (isVideo : Bool) : GUMRequest :=
  { video := isVideo, videoFacing := isVideo, videoResolution := false,
    audio := true, audioIdeal := false }

/-- initiateCall's media acquisition (v1, lines 161-173; part_004 lines 203-221 is the
same): exactly one getUserMedia call; a rejection is surfaced as an error and the call
is aborted with no retry. -/
def cm1AcquireMedia (dev : MediaDevice) (isVideo : Bool) : Option Nat :=
  dev (cm1MediaRequest isVideo)

/-- part_007 startCall's first attempt for a video call (lines 1063-1067): video with
facingMode plus audio with echoCancellation and noiseSuppression. -/
def p7Attempt1 : GUMRequest :=
  { video := true, videoFacing := true, videoResolution := false,
    audio := true, audioIdeal := true }

/-- part_007 startCall's fallback attempt (lines 1069-1075; also the sole attempt for
an audio call): no video, audio with echoCancellation and noiseSuppression. -/
def p7Attempt2 : GUMRequest :=
  { video := false, videoFacing := false, videoResolution := false,
    audio := true, audioIdeal := true }

/-- part_007 startCall's acquisition chain (lines 1059-1093): for a video call, try
the full set and fall back to audio-only; when every attempt fails the outer catch
yields no stream at all (receive-only mode) rather than an error. -/
def p7AcquireMedia (dev : MediaDevice) (isVideo : Bool) : Option Nat :=
  if isVideo then
    match dev p7Attempt1 with
    | some s => some s
    | none => dev p7Attempt2
  else dev p7Attempt2

/-- The minimal constraint set the specification names: audio true, video bool, no
hints. -/
def minimalVideoRequest : GUMRequest :=
  { video := true, videoFacing := false, videoResolution := false,
    audio := true, audioIdeal := false }

/-- The ideal constraint set getMediaStream builds first (part_002 lines 126-146,
part_003 lines 152-175): audio with echoCancellation, noiseSuppression and
autoGainControl, and, for a video call, video with a facingMode hint on mobile or an
ideal-resolution hint (1280x720) on desktop. -/
def p2IdealRequest (isVideo isMobile : Bool) : GUMRequest :=
  if isVideo then
    if isMobile then
      { video := true, videoFacing := true, videoResolution := false,
        audio := true, audioIdeal := true }
    else
      { video := true, videoFacing := false, videoResolution := true,
        audio := true, audioIdeal := true }
  else
    { video := false, videoFacing := false, videoResolution := false,
      audio := true, audioIdeal := true }

/-- The fallback constraint set of getMediaStream (part_002 line 153, part_003 line
182): audio true, video exactly when the call is a video call, no hints. -/
def p2MinimalRequest (isVideo : Bool) : GUMRequest :=
  { video := isVideo, videoFacing := false, videoResolution := false,
    audio := true, audioIdeal := false }

/-- getMediaStream (part_002 lines 117-159, part_003 lines 142-189): after the
upfront secure-context check (an insecure, non-localhost context throws before any
attempt), try getUserMedia with the ideal constraint set; on rejection retry with the
minimal set; rethrow only the second rejection, which the callers surface to the
session via setErrorMsg and cleanup.  none models the thrown error. -/
def p2GetMediaStream (secure : Bool) (dev : MediaDevice) (isVideo isMobile : Bool) :
    Option Nat :=
  if secure then
    match dev (p2IdealRequest isVideo isMobile) with
    | some s => some s
    | none => dev (p2MinimalRequest isVideo)
  else none

/-- A device that rejects any request carrying a facingMode hint and accepts the
rest. -/
def facingAverseDevice : MediaDevice :=
  fun r => if r.videoFacing then none else some 0

/-- A device that accepts every request. -/
def permissiveDevice : MediaDevice := fun _ => some 1

/-! ### Concrete states and records used by the closed theorems -/

/-- A v1 caller mid-ring: outgoing call placed, listeners attached, no answer yet. -/
def cm1CallingSt : Cm1St :=
  { callStatus := .calling, activeCall := true, incomingCall := none,
    localStream := true, pcOpen := true, remoteDesc := none,
    subs := 2, ringtone := false, isMuted := false, isVideoOff := false,
    appliedCandidates := [] }

/-- A v1 client at rest. -/
def cm1IdleSt : Cm1St :=
  { callStatus := .idle, activeCall := false, incomingCall := none,
    localStream := false, pcOpen := false, remoteDesc := none,
    subs := 0, ringtone := false, isMuted := false, isVideoOff := false,
    appliedCandidates := [] }

/-- A record carrying an answer, as the callee's single merge leaves it. -/
def answeredDoc : CallDoc :=
  { status := .answered, offer := some 1, answer := some 2, createdAt := some 0 }

/-- A record whose status was set to ended. -/
def endedDoc : CallDoc :=
  { status := .ended, offer := some 1, answer := some 2, createdAt := some 0 }

/-- An offering record created at millisecond 1. -/
def staleDoc : CallDoc :=
  { status := .offering, offer := some 1, answer := none, createdAt := some 1 }

/-- An offering record created at millisecond 1000. -/
def fresh1000Doc : CallDoc :=
  { status := .offering, offer := some 1, answer := none, createdAt := some 1000 }

/-- A record with status offering and no answer, as it stands before being answered. -/
def offeringDoc : CallDoc :=
  { status := .offering, offer := some 1, answer := none, createdAt := some 0 }

/-- A v3 client in an established call. -/
def cm3BusySt : Cm3St :=
  { viewStatus := .connected, incomingCall := none, activeCall := true,
    localStream := true, pcOpen := true, remoteDesc := some 4,
    ringing := false, docListenerActive := true }

/-- A v3 client at rest. -/
def cm3IdleSt : Cm3St :=
  { viewStatus := .idle, incomingCall := none, activeCall := false,
    localStream := false, pcOpen := false, remoteDesc := none,
    ringing := false, docListenerActive := false }

/-- An event run that queues a candidate, receives the answer, then receives a second
candidate. -/
def c1Evs : List P7Event :=
  [.candidateAdded 5, .answerSnap (some (some 2)), .candidateAdded 6]

/-! ## Theorems -/

/-- C8: teardown is idempotent.  A second invocation of cleanup (CallManager.tsx v1
lines 47-76; part_004 lines 51-98 has the same structure) reproduces the state the
first produced, and, run in an already-cleaned state, performs no observable action at
all: no track is stopped, no peer connection is closed, no unsubscribe function runs
and no ringtone is paused.  cleanup itself performs no store write, so no duplicate
ended write can originate here. -/
theorem c8_cleanup_idempotent (s : Cm1St) :
    cm1Cleanup (cm1Cleanup s) = cm1Cleanup s ∧ cm1CleanupEffects (cm1Cleanup s) = [] :=
  ⟨rfl, rfl⟩

/-- C1 counterexample: the v1 caller's answerCandidates listener applies a candidate
that arrives while no remote description is installed immediately, with no queue: in
the mid-ring state (remote description absent), one added candidate lands in the
applied log at once, and the remote description is still absent afterwards.  This
contradicts the claim that such a candidate is queued and only applied after
setRemoteDescription. -/
theorem c1_unbuffered_candidate_applied_before_remote :
    cm1CallingSt.remoteDesc = none ∧
    (cm1OnAnswerCandidateAdded 7 cm1CallingSt).appliedCandidates = [7] ∧
    (cm1OnAnswerCandidateAdded 7 cm1CallingSt).remoteDesc = none := by
  decide

/-- Invariant preservation for one part_007 callback: the buffer applies a candidate
only when a remote description exists, keeps the queue empty once one exists, and the
applied log followed by the queue always lists the delivered candidates in arrival
order, each exactly once. -/
theorem p7_step_buffer (s : P7St) (e : P7Event)
    (h1 : s.remoteDesc = none → s.applied = [])
    (h2 : s.remoteDesc.isSome → s.queue = []) :
    ((p7Step s e).remoteDesc = none → (p7Step s e).applied = []) ∧
    ((p7Step s e).remoteDesc.isSome → (p7Step s e).queue = []) ∧
    (p7Step s e).applied ++ (p7Step s e).queue = (s.applied ++ s.queue) ++ p7DeliveredOne e := by
  cases e with
  | candidateAdded c =>
    cases hrd : s.remoteDesc with
    | none =>
      have hq : s.remoteDesc.isSome = false := by rw [hrd]; rfl
      simp [p7Step, p7ProcessCandidate, hq, hrd, h1 hrd, p7DeliveredOne]
    | some x =>
      have hq : s.remoteDesc.isSome = true := by rw [hrd]; rfl
      have hqe : s.queue = [] := h2 hq
      simp [p7Step, p7ProcessCandidate, hq, hrd, hqe, p7DeliveredOne]
  | answerSnap fields =>
    cases fields with
    | none => exact ⟨h1, h2, by simp [p7Step, p7DeliveredOne]⟩
    | some ans =>
      by_cases hg : s.remoteDesc = none ∧ ans.isSome
      · have hqe : (ans.isSome : Prop) := hg.2
        constructor
        · intro hcon
          simp [p7Step, hg, p7FlushQueue] at hcon
          rw [hcon] at hqe
          simp at hqe
        · constructor
          · intro _
            simp [p7Step, hg, p7FlushQueue]
          · simp [p7Step, hg, p7FlushQueue, p7DeliveredOne]
      · exact ⟨by simpa [p7Step, hg] using h1, by simpa [p7Step, hg] using h2,
          by simp [p7Step, hg, p7DeliveredOne]⟩
  | connChange cs =>
    by_cases hc : cs = ConnState.connected
    · exact ⟨by simpa [p7Step, hc] using h1, by simpa [p7Step, hc] using h2,
        by simp [p7Step, hc, p7DeliveredOne]⟩
    · by_cases hd : cs = ConnState.disconnected ∨ cs = ConnState.failed
      · exact ⟨by simpa [p7Step, hc, hd] using h1, by simpa [p7Step, hc, hd] using h2,
          by simp [p7Step, hc, hd, p7DeliveredOne]⟩
      · exact ⟨by simpa [p7Step, hc, hd] using h1, by simpa [p7Step, hc, hd] using h2,
          by simp [p7Step, hc, hd, p7DeliveredOne]⟩

/-- The buffer invariant over a whole run of callbacks. -/
theorem p7_run_buffer (evs : List P7Event) : ∀ (s : P7St),
    (s.remoteDesc = none → s.applied = []) →
    (s.remoteDesc.isSome → s.queue = []) →
    ((p7Run s evs).remoteDesc = none → (p7Run s evs).applied = []) ∧
    ((p7Run s evs).remoteDesc.isSome → (p7Run s evs).queue = []) ∧
    (p7Run s evs).applied ++ (p7Run s evs).queue = (s.applied ++ s.queue) ++ p7Delivered evs := by
  induction evs with
  | nil =>
    intro s h1 h2
    exact ⟨h1, h2, by simp [p7Run, p7Delivered]⟩
  | cons e es ih =>
    intro s h1 h2
    obtain ⟨g1, g2, g3⟩ := p7_step_buffer s e h1 h2
    obtain ⟨k1, k2, k3⟩ := ih (p7Step s e) g1 g2
    refine ⟨by simpa [p7Run] using k1, by simpa [p7Run] using k2, ?_⟩
    show (p7Run (p7Step s e) es).applied ++ (p7Run (p7Step s e) es).queue = _
    rw [k3, g3]
    simp [p7Delivered, List.append_assoc]

/-- C1 (amended, proved for the part_007 buffer): over any serialized run of
callbacks from the host's start state, the candidates handed to addIceCandidate
followed by the still-queued ones equal the delivered candidates in arrival order
(each delivered candidate is applied at most once and never out of order); while no
remote description is installed nothing has been applied; and once one is installed
the queue is empty, i.e. it was flushed exactly when setRemoteDescription succeeded. -/
theorem c1_candidate_buffer_order (evs : List P7Event) :
    (p7Run p7Start evs).applied ++ (p7Run p7Start evs).queue = p7Delivered evs ∧
    ((p7Run p7Start evs).remoteDesc = none → (p7Run p7Start evs).applied = []) ∧
    ((p7Run p7Start evs).remoteDesc.isSome → (p7Run p7Start evs).queue = []) := by
  obtain ⟨k1, k2, k3⟩ := p7_run_buffer evs p7Start (fun _ => rfl) (fun _ => rfl)
  exact ⟨by simpa [p7Start] using k3, k1, k2⟩

/-- Witness for the buffer theorem at a concrete run: a candidate delivered before
the answer and one delivered after both end up applied, in order, and the premises of
each conditional part are discharged at concrete runs. -/
theorem c1_candidate_buffer_order_witness :
    (p7Run p7Start c1Evs).applied ++ (p7Run p7Start c1Evs).queue = p7Delivered c1Evs ∧
    (p7Run p7Start c1Evs).queue = [] ∧
    (p7Run p7Start [P7Event.candidateAdded 5]).applied = [] :=
  ⟨(c1_candidate_buffer_order c1Evs).1,
   (c1_candidate_buffer_order c1Evs).2.2 (by decide),
   (c1_candidate_buffer_order [P7Event.candidateAdded 5]).2.1 (by decide)⟩

/-- Once a remote description is installed, every further delivery to the guarded
answer listener is a no-op performing zero setRemoteDescription calls. -/
theorem cm1_answer_apply_noop (snaps : List (Option CallDoc)) (x : SDP) :
    cm1AnswerApplyRun snaps (some x) = (some x, 0) := by
  induction snaps with
  | nil => rfl
  | cons s rest ih =>
    cases s with
    | none => simpa [cm1AnswerApplyRun, cm1AnswerApplyStep] using ih
    | some d => simpa [cm1AnswerApplyRun, cm1AnswerApplyStep] using ih

/-- Starting with no remote description, a run of snapshot deliveries performs at most
one setRemoteDescription call. -/
theorem cm1_answer_apply_count (snaps : List (Option CallDoc)) :
    (cm1AnswerApplyRun snaps none).2 ≤ 1 := by
  induction snaps with
  | nil => simp [cm1AnswerApplyRun]
  | cons s rest ih =>
    cases s with
    | none => simpa [cm1AnswerApplyRun, cm1AnswerApplyStep] using ih
    | some d =>
      cases ha : d.answer with
      | none => simpa [cm1AnswerApplyRun, cm1AnswerApplyStep, ha] using ih
      | some a =>
        simp [cm1AnswerApplyRun, cm1AnswerApplyStep, ha, cm1_answer_apply_noop]

/-- C2: the remote description is applied at most once per peer session.  Every
multi-fire path that can apply one (the caller's answer listener in each variant and
part_007's two call-doc listeners) guards on the absence of an installed remote
description, so a run of snapshot deliveries starting with none installed performs at
most one setRemoteDescription call, and once one is installed every further delivery
is a no-op, not an error and not a duplicate application.  (The callee's direct apply
runs once on a freshly constructed peer connection.) -/
theorem c2_remote_description_applied_at_most_once
    (snaps : List (Option CallDoc)) (p : Option SDP) :
    (p = none → (cm1AnswerApplyRun snaps p).2 ≤ 1) ∧
    (p.isSome → cm1AnswerApplyRun snaps p = (p, 0)) := by
  constructor
  · intro hp; rw [hp]; exact cm1_answer_apply_count snaps
  · intro hp
    obtain ⟨x, hx⟩ := Option.isSome_iff_exists.mp hp
    rw [hx]
    exact cm1_answer_apply_noop snaps x

/-- Witness: two deliveries of an answered record from scratch apply it once in
total, and a delivery onto an installed description changes nothing. -/
theorem c2_witness :
    (cm1AnswerApplyRun [some answeredDoc, some answeredDoc] none).2 ≤ 1 ∧
    cm1AnswerApplyRun [some answeredDoc] (some 9) = (some 9, 0) :=
  ⟨(c2_remote_description_applied_at_most_once [some answeredDoc, some answeredDoc] none).1 rfl,
   (c2_remote_description_applied_at_most_once [some answeredDoc] (some 9)).2 rfl⟩

/-- C3 counterexample: a caller hangup while the record still offers, raced by the
callee's decline (both enabled by their purely local guards), drives the status along
offering, ended, declined — leaving both claimed paths: offering to ended is not an
allowed edge, and declined is written after the terminal ended.  Even the one-write
run of a lone hangup produces the unlisted transition offering to ended. -/
theorem c3_status_leaves_claimed_paths :
    p4StatusTrace [CallOp.hangupOp, CallOp.rejectOp] =
      [CallStatus.offering, CallStatus.ended, CallStatus.declined] ∧
    onClaimPath (p4StatusTrace [CallOp.hangupOp, CallOp.rejectOp]) = false ∧
    p4StatusTrace [CallOp.hangupOp] = [CallStatus.offering, CallStatus.ended] ∧
    claimEdge CallStatus.offering CallStatus.ended = false := by
  decide

/-- No record operation writes the status offering. -/
theorem p4_apply_status_ne_offering (d : CallDoc) (op : CallOp) :
    (p4ApplyOp d op).status ≠ CallStatus.offering := by
  cases op <;> simp [p4ApplyOp, p4AnswerWrite, p4HangupWrite, p4RejectWrite]

/-- Along any scan of record operations from a non-offering record, every state stays
non-offering. -/
theorem p4_scanl_status_ne_offering (ops : List CallOp) : ∀ (d : CallDoc),
    d.status ≠ CallStatus.offering →
    ∀ x ∈ List.scanl p4ApplyOp d ops, x.status ≠ CallStatus.offering := by
  induction ops with
  | nil =>
    intro d hd x hx
    simp [List.scanl] at hx
    rw [hx]
    exact hd
  | cons op rest ih =>
    intro d hd x hx
    rw [List.scanl_cons] at hx
    rcases List.mem_cons.mp hx with h | h
    · rw [h]; exact hd
    · exact ih (p4ApplyOp d op) (p4_apply_status_ne_offering d op) x h

/-- C3 (amended): the status writes are unconditional merges, so the trace can leave
the two claimed paths (see the counterexample); what the code does guarantee is that
the status, offering at creation, never returns to offering once any operation has
run — every status visible after the initial one differs from offering. -/
theorem c3_status_never_returns_to_offering (ops : List CallOp) (st : CallStatus)
    (h : st ∈ (p4StatusTrace ops).tail) : st ≠ CallStatus.offering := by
  cases ops with
  | nil => simp [p4StatusTrace, List.scanl] at h
  | cons op rest =>
    have h' : st ∈ (List.scanl p4ApplyOp (p4ApplyOp p4InitialDoc op) rest).map CallDoc.status := by
      simpa [p4StatusTrace, List.scanl_cons] using h
    obtain ⟨x, hx, hfx⟩ := List.mem_map.mp h'
    rw [← hfx]
    exact p4_scanl_status_ne_offering rest (p4ApplyOp p4InitialDoc op)
      (p4_apply_status_ne_offering p4InitialDoc op) x hx

/-- Witness: after a lone hangup the trace's tail holds ended, which indeed differs
from offering. -/
theorem c3_amended_witness :
    CallStatus.ended ∈ (p4StatusTrace [CallOp.hangupOp]).tail ∧
    CallStatus.ended ≠ CallStatus.offering :=
  ⟨by decide, c3_status_never_returns_to_offering [CallOp.hangupOp] CallStatus.ended (by decide)⟩

/-- C4: the callee's answer flow issues exactly one merge-update, carrying the answer
and status answered together, so provided the record was consistent before it, every
record state a concurrent reader can observe keeps a status of answered accompanied by
an answer body — at no observable instant is the status answered with the answer
missing. -/
theorem c4_answer_written_atomically (d0 : CallDoc) (sdp : SDP)
    (h : answeredHasBody d0 = true) :
    (answerFlowWrites sdp).length = 1 ∧
    (answerFlowStates d0 sdp).all answeredHasBody = true := by
  refine ⟨rfl, ?_⟩
  have h2 : answeredHasBody
      (applyMerge d0 { answer := some sdp, status := some CallStatus.answered }) = true := by
    simp [applyMerge, answeredHasBody]
  simp [answerFlowStates, answerFlowWrites, h, h2]

/-- Witness: answering the freshly offered record at a concrete SDP. -/
theorem c4_witness :
    answeredHasBody offeringDoc = true ∧
    ((answerFlowWrites 5).length = 1 ∧
      (answerFlowStates offeringDoc 5).all answeredHasBody = true) :=
  ⟨by decide, c4_answer_written_atomically offeringDoc 5 (by decide)⟩

/-- C5 counterexample: the v1 caller's call-doc listener returns at once on a deleted
record, so a mid-ring participant whose record is deleted remotely keeps its session
untouched — while the very same listener, fed a record with status ended, tears the
session down.  Removal and ended are therefore not treated identically. -/
theorem c5_removal_ignored_by_update_variant :
    cm1OnCallDocSnapshot none cm1CallingSt = cm1CallingSt ∧
    cm1CallingSt.callStatus ≠ Cm1Phase.idle ∧
    cm1OnCallDocSnapshot (some endedDoc) cm1CallingSt ≠ cm1OnCallDocSnapshot none cm1CallingSt := by
  decide

/-- C5 (amended, proved for the delete-based v3 variant, whose end-of-call signal is
record deletion): both of v3's record listeners run handleHangup on removal, so a
participant whose record disappears always lands in the cleaned idle state with the
peer connection closed. -/
theorem c5_removal_tears_down_in_delete_variant (s : Cm3St) :
    cm3OnCallDocSnapshot none s = cm3CleanupCall s ∧
    cm3OnCallEndSnapshot false s = cm3CleanupCall s ∧
    (cm3OnCallDocSnapshot none s).viewStatus = Cm3Phase.idle ∧
    (cm3OnCallDocSnapshot none s).pcOpen = false :=
  ⟨rfl, rfl, rfl, rfl⟩

/-- C6 counterexample: the part_004 incoming-call listener (and v1's, identical)
consults only the idle guard, never createdAt: an offering record created at
millisecond 1 and observed at millisecond 120000 — 119999 ms old, far past the 60000 ms
threshold — still sets the incoming call and starts the ringtone on an idle client. -/
theorem c6_stale_offer_rings_in_part004 :
    staleDoc.createdAt = some 1 ∧
    (120000 : Int) - 1 > 60000 ∧
    (cm1OnIncomingAdded 3 staleDoc cm1IdleSt).incomingCall = some 3 ∧
    (cm1OnIncomingAdded 3 staleDoc cm1IdleSt).ringtone = true := by
  decide

/-- C6 (amended, proved for the v3 watcher, the one variant with the staleness rule):
an offering record whose createdAt is present (and nonzero, since the JS falsy-or
fallback replaces a zero timestamp with the current time) and whose age at watch time
is at least 60000 ms never rings — the listener leaves the state untouched. -/
theorem c6_stale_offer_ignored_in_v3 (docId : Nat) (d : CallDoc) (now ca : Int)
    (s : Cm3St) (hca : d.createdAt = some ca) (hnz : ca ≠ 0)
    (hage : now - ca ≥ 60000) :
    cm3OnIncomingAdded docId d now s = s := by
  unfold cm3OnIncomingAdded
  rw [hca]
  simp only [if_neg hnz]
  rw [if_neg (by omega)]

/-- Witness: the record created at millisecond 1 watched at millisecond 120000 leaves
the idle v3 client untouched. -/
theorem c6_witness :
    staleDoc.createdAt = some 1 ∧ (1 : Int) ≠ 0 ∧ (120000 : Int) - 1 ≥ 60000 ∧
    cm3OnIncomingAdded 3 staleDoc 120000 cm3IdleSt = cm3IdleSt :=
  ⟨rfl, by decide, by decide,
   c6_stale_offer_ignored_in_v3 3 staleDoc 120000 1 cm3IdleSt rfl (by decide) (by decide)⟩

/-- C7 counterexample: the v1 caller is moved to connected by the mere arrival of the
answer in the call-doc snapshot — v1 registers no connection-state callback at all —
so the session reports connected earlier than any connection-state-changed report. -/
theorem c7_connected_on_answer_arrival :
    cm1CallingSt.callStatus = Cm1Phase.calling ∧
    (cm1OnCallDocSnapshot (some answeredDoc) cm1CallingSt).callStatus = Cm1Phase.connected := by
  decide

/-- A single part_007 callback can move the status to connected only if it is the
connection-state callback reporting connected. -/
theorem p7_connected_step (s : P7St) (e : P7Event)
    (h0 : s.status ≠ P7Status.connected)
    (h : (p7Step s e).status = P7Status.connected) :
    e = P7Event.connChange ConnState.connected := by
  cases e with
  | candidateAdded c =>
    refine absurd ?_ h0
    rw [← h]
    simp only [p7Step, p7ProcessCandidate]
    split <;> rfl
  | answerSnap fields =>
    refine absurd ?_ h0
    rw [← h]
    cases fields with
    | none => rfl
    | some ans =>
      simp only [p7Step]
      split <;> rfl
  | connChange cs =>
    by_cases hcs : cs = ConnState.connected
    · rw [hcs]
    · exfalso
      by_cases hd : cs = ConnState.disconnected ∨ cs = ConnState.failed
      · have hfail : (p7Step s (P7Event.connChange cs)).status = P7Status.failed := by
          simp [p7Step, hcs, hd]
        exact absurd (h.symm.trans hfail) (by decide)
      · have hkeep : (p7Step s (P7Event.connChange cs)).status = s.status := by
          simp [p7Step, hcs, hd]
        rw [hkeep] at h
        exact h0 h

/-- C7 (amended, proved for part_007, the one variant wiring
onconnectionstatechange): starting from any non-connected status, a run of callbacks
ends connected only if the run contains the connection-state callback reporting
connected — neither the answer's arrival nor any candidate or deletion event reaches
connected on its own. -/
theorem c7_connected_only_via_connection_state (evs : List P7Event) (s : P7St)
    (h0 : s.status ≠ P7Status.connected)
    (hc : (p7Run s evs).status = P7Status.connected) :
    P7Event.connChange ConnState.connected ∈ evs := by
  induction evs generalizing s with
  | nil => exact absurd hc h0
  | cons e es ih =>
    by_cases hst : (p7Step s e).status = P7Status.connected
    · rw [p7_connected_step s e h0 hst]
      exact List.mem_cons_self _ _
    · exact List.mem_cons_of_mem _ (ih (p7Step s e) hst (by simpa [p7Run] using hc))

/-- Witness: the run receiving the answer then the connected report ends connected,
and indeed contains the connected report. -/
theorem c7_witness :
    p7Start.status ≠ P7Status.connected ∧
    (p7Run p7Start [P7Event.answerSnap (some (some 3)),
      P7Event.connChange ConnState.connected]).status = P7Status.connected ∧
    P7Event.connChange ConnState.connected ∈
      [P7Event.answerSnap (some (some 3)), P7Event.connChange ConnState.connected] :=
  ⟨by decide, by decide,
   c7_connected_only_via_connection_state
     [P7Event.answerSnap (some (some 3)), P7Event.connChange ConnState.connected]
     p7Start (by decide) (by decide)⟩

/-- C9 counterexample: the v3 incoming-call listener has no idle guard — in an
established call (activeCall set, view connected), a fresh second offer still sets the
incoming call and starts ringing. -/
theorem c9_ring_delivered_while_busy :
    cm3BusySt.activeCall = true ∧
    cm3BusySt.viewStatus ≠ Cm3Phase.idle ∧
    (cm3OnIncomingAdded 9 fresh1000Doc 1000 cm3BusySt).incomingCall = some 9 ∧
    (cm3OnIncomingAdded 9 fresh1000Doc 1000 cm3BusySt).ringing = true := by
  decide

/-- C9 (amended, proved for the v1 watcher, the variant with the guard): whenever the
client is not exactly idle-with-no-active-call, an added offer leaves the state
untouched — no ring is delivered and the current session is not replaced. -/
theorem c9_idle_guard_blocks_second_ring (docId : Nat) (d : CallDoc) (s : Cm1St)
    (h : ¬(s.callStatus = Cm1Phase.idle ∧ s.activeCall = false)) :
    cm1OnIncomingAdded docId d s = s := by
  unfold cm1OnIncomingAdded
  rw [if_neg h]

/-- Witness: a second offer arriving at the mid-ring caller changes nothing. -/
theorem c9_witness :
    ¬(cm1CallingSt.callStatus = Cm1Phase.idle ∧ cm1CallingSt.activeCall = false) ∧
    cm1OnIncomingAdded 9 fresh1000Doc cm1CallingSt = cm1CallingSt :=
  ⟨by decide, c9_idle_guard_blocks_second_ring 9 fresh1000Doc cm1CallingSt (by decide)⟩

/-- C10 counterexample: v1's acquisition makes a single getUserMedia attempt, whose
constraint set is not the ideal one (no echo cancellation or noise suppression), and
surfaces failure without any retry: against a device that rejects only facing-hinted
requests, v1 fails even though the minimal constraint set would have succeeded —
failure is reported although not both attempts failed. -/
theorem c10_single_attempt_fails_without_retry :
    cm1AcquireMedia facingAverseDevice true = none ∧
    facingAverseDevice minimalVideoRequest = some 0 ∧
    cm1MediaRequest true ≠ p7Attempt1 := by
  decide

/-- Supporting fact about part_007's own chain (a different shape from the claim):
for a video call it returns the first attempt's stream when it succeeds, falls back to
the audio-only attempt when it fails, and yields no stream at all — receive-only
mode, with no surfaced error — exactly when both attempts fail. -/
theorem p7_acquire_first_success_fallback (dev : MediaDevice) :
    (p7AcquireMedia dev true = none ↔ dev p7Attempt1 = none ∧ dev p7Attempt2 = none) ∧
    (∀ str, dev p7Attempt1 = some str → p7AcquireMedia dev true = some str) ∧
    (dev p7Attempt1 = none → p7AcquireMedia dev true = dev p7Attempt2) := by
  cases h : dev p7Attempt1 with
  | none => simp [p7AcquireMedia, h]
  | some v => simp [p7AcquireMedia, h]

/-- C10 (amended): the claimed ideal-then-minimal fallback is implemented by the
part_002/part_003 variants' getMediaStream: in a secure context the acquisition first
attempts the ideal constraint set (ideal audio plus a facing or resolution hint for a
video call), returns its stream when it succeeds, otherwise retries exactly the
minimal set (audio true, video bool, no hints, no ideal audio), and surfaces an
acquisition error precisely when both attempts fail.  The plain CallManager and
part_004 variants instead make a single attempt with no retry — see the
counterexample — and part_007's distinct chain swallows a total failure into
receive-only mode instead of surfacing it. -/
theorem c10_ideal_then_minimal_fallback (dev : MediaDevice) (isVideo isMobile : Bool) :
    ((p2IdealRequest isVideo isMobile).audioIdeal = true ∧
      p2MinimalRequest isVideo =
        { video := isVideo, videoFacing := false, videoResolution := false,
          audio := true, audioIdeal := false }) ∧
    (p2GetMediaStream true dev isVideo isMobile = none ↔
      dev (p2IdealRequest isVideo isMobile) = none ∧
        dev (p2MinimalRequest isVideo) = none) ∧
    (∀ str, dev (p2IdealRequest isVideo isMobile) = some str →
      p2GetMediaStream true dev isVideo isMobile = some str) ∧
    (dev (p2IdealRequest isVideo isMobile) = none →
      p2GetMediaStream true dev isVideo isMobile = dev (p2MinimalRequest isVideo)) := by
  refine ⟨⟨?_, rfl⟩, ?_⟩
  · cases isVideo <;> cases isMobile <;> rfl
  · cases h : dev (p2IdealRequest isVideo isMobile) with
    | none => simp [p2GetMediaStream, h]
    | some v => simp [p2GetMediaStream, h]

/-- Witness for the fallback theorem at concrete devices: the permissive device
succeeds on the ideal attempt and its stream is returned; the facing-averse device
rejects the mobile-video ideal attempt (it carries the facing hint) yet accepts the
minimal set, so the chain returns the minimal attempt's stream instead of an error. -/
theorem c10_amended_witness :
    (p2GetMediaStream true facingAverseDevice true true = none ↔
      facingAverseDevice (p2IdealRequest true true) = none ∧
        facingAverseDevice (p2MinimalRequest true) = none) ∧
    p2GetMediaStream true permissiveDevice true true = some 1 ∧
    p2GetMediaStream true facingAverseDevice true true =
      facingAverseDevice (p2MinimalRequest true) ∧
    facingAverseDevice (p2MinimalRequest true) = some 0 :=
  ⟨(c10_ideal_then_minimal_fallback facingAverseDevice true true).2.1,
   (c10_ideal_then_minimal_fallback permissiveDevice true true).2.2.1 1 rfl,
   (c10_ideal_then_minimal_fallback facingAverseDevice true true).2.2.2 rfl,
   by decide⟩
